import Mathlib

/-!
Shallow embedding of the status-normalization and aggregation pipeline of
`streamlit_kpi_dashboard.py` (an ETL-migration KPI dashboard).

Modelling conventions:

* A pandas DataFrame is a `List` of row structures plus two table-level
  booleans recording which of the two status source columns exist after the
  rename step (`Status` → `status_raw`, `Status Name` → `status_name_raw`).
* Cell values of the status columns are `String`s as produced by
  `.astype(str)`: a missing (NaN) cell arrives as the literal string `"nan"`,
  a `None` cell as `"None"`.
* The group-key columns `project` / `dev_grp_name` are `Option String`;
  `none` models a NaN key cell.  `groupby(..., dropna=False)` (used by
  `build_summary`) keeps NaN keys as their own group, which equality on
  `Option.none` models directly; `groupby("dev_grp_name")` with the default
  `dropna=True` (used by `summary_by_group`) drops NaN keys, modelled by
  `List.filterMap`.
* Python `str.strip` / `str.lower` / `str.upper` are `stripStr` / `lowerStr`
  / `upperStr`, executable character-list implementations of the same ASCII
  semantics (defined below so that concrete runs reduce inside the kernel).
* Python 3 `round` rounds halves to even; it is modelled exactly by
  `roundHalfEven` over `ℚ` (the float division `100 * n / d` is modelled as
  exact rational division).
* pandas `groupby` iterates each distinct key once; the iteration order is
  irrelevant to every property proved below, so groups are enumerated with
  `List.dedup` over the key column.
-/

/-- A raw input row after the column rename.  `status_raw` / `status_name_raw`
hold the string-coerced cell values of the `Status` / `Status Name` columns
(meaningful only when the corresponding table-level presence flag is set). -/
structure RawRow where
  project : Option String
  dev_grp_name : Option String
  status_raw : String
  status_name_raw : String
  deriving DecidableEq

/-- A raw input table: which status source columns exist, plus the rows. -/
structure RawTable where
  hasStatusRaw : Bool
  hasStatusNameRaw : Bool
  rows : List RawRow
  deriving DecidableEq

/-- One output row of `normalize_and_derive_flags`: the group keys, the
canonical status (`status_code`), its lower-cased matching key
(`status_code_norm`) and the eight flag columns. -/
structure EnrichedRow where
  project : Option String
  dev_grp_name : Option String
  status_code : String
  status_code_norm : String
  spec_done_cnt : ℕ
  etl_done_cnt : ℕ
  qa_done_cnt : ℕ
  acc_done_cnt : ℕ
  prod_done_cnt : ℕ
  spec_in_pgrs_cnt : ℕ
  etl_in_pgrs_cnt : ℕ
  qa_in_pgrs_cnt : ℕ
  deriving DecidableEq

/-- Drop leading whitespace characters from a character list. -/
def dropLeadingWs : List Char → List Char
  | [] => []
  | c :: cs => if c.isWhitespace then dropLeadingWs cs else c :: cs

/-- Python `str.strip()`: remove leading and trailing whitespace. -/
def stripStr (s : String) : String :=
  ⟨(dropLeadingWs (dropLeadingWs s.data).reverse).reverse⟩

/-- Python `str.lower()` (ASCII). -/
def lowerStr (s : String) : String := ⟨s.data.map Char.toLower⟩

/-- Python `str.upper()` (ASCII). -/
def upperStr (s : String) : String := ⟨s.data.map Char.toUpper⟩

/-- The configuration dict `STATUS_FLAG_MAPPING` of the source: flag column
name → list of accepted status codes. -/
def STATUS_FLAG_MAPPING : List (String × List String) :=
  [("spec_done_cnt", ["spec"]),
   ("etl_done_cnt", ["etl"]),
   ("qa_done_cnt", ["qa"]),
   ("acc_done_cnt", ["acc"]),
   ("prod_done_cnt", ["prod"]),
   ("spec_in_pgrs_cnt", []),
   ("etl_in_pgrs_cnt", []),
   ("qa_in_pgrs_cnt", [])]

/-- Status source selection: `status_raw` if the `Status` column exists, else
`status_name_raw` if `Status Name` exists, else the empty string
(`pd.Series("")`). -/
def selectStatus (hasS hasSN : Bool) (r : RawRow) : String :=
  if hasS then r.status_raw
  else if hasSN then r.status_name_raw
  else ""

/-- The `.replace({"nan": "", "NaN": "", "None": "", "none": ""})` step:
exact-match replacement of the four null-like literals by the empty string. -/
def replaceNullLike (s : String) : String :=
  if s = "nan" ∨ s = "NaN" ∨ s = "None" ∨ s = "none" then "" else s

/-- The `.where(~isin(["?", "", " "]), other="PEND")` step: placeholders are
resolved to `"PEND"`. -/
def toPend (s : String) : String :=
  if s = "?" ∨ s = "" ∨ s = " " then "PEND" else s

/-- The CNN drop mask: applied to the stripped, null-replaced status value,
compared case-insensitively (via `.str.upper()`) against `"CNN"`. -/
def isExcluded (s : String) : Bool :=
  decide (upperStr (replaceNullLike (stripStr s)) = "CNN")

/-- The `status_code` column of a surviving row: strip, replace null-likes,
resolve placeholders to PEND. -/
def canonicalStatus (hasS hasSN : Bool) (r : RawRow) : String :=
  toPend (replaceNullLike (stripStr (selectStatus hasS hasSN r)))

/-- The `status_code_norm` column: `.str.lower().str.strip()` of
`status_code`. -/
def statusNorm (hasS hasSN : Bool) (r : RawRow) : String :=
  stripStr (lowerStr (canonicalStatus hasS hasSN r))

/-- Codes of a flag column in a mapping (`[]` when the flag is absent). -/
def lookupCodes (m : List (String × List String)) (flag : String) : List String :=
  (List.lookup flag m).getD []

/-- Flag derivation for one column: 1 iff the normalized status is a member of
the flag's (lower-cased) accepted-code list, else the initialized 0. -/
def flagVal (codes : List String) (norm : String) : ℕ :=
  if norm ∈ codes.map lowerStr then 1 else 0

/-- The Enriched Row built from one surviving raw row, under mapping `m`. -/
def enrichRowWith (m : List (String × List String)) (hasS hasSN : Bool)
    (r : RawRow) : EnrichedRow :=
  ⟨r.project, r.dev_grp_name,
   canonicalStatus hasS hasSN r, statusNorm hasS hasSN r,
   flagVal (lookupCodes m "spec_done_cnt") (statusNorm hasS hasSN r),
   flagVal (lookupCodes m "etl_done_cnt") (statusNorm hasS hasSN r),
   flagVal (lookupCodes m "qa_done_cnt") (statusNorm hasS hasSN r),
   flagVal (lookupCodes m "acc_done_cnt") (statusNorm hasS hasSN r),
   flagVal (lookupCodes m "prod_done_cnt") (statusNorm hasS hasSN r),
   flagVal (lookupCodes m "spec_in_pgrs_cnt") (statusNorm hasS hasSN r),
   flagVal (lookupCodes m "etl_in_pgrs_cnt") (statusNorm hasS hasSN r),
   flagVal (lookupCodes m "qa_in_pgrs_cnt") (statusNorm hasS hasSN r)⟩

/-- `normalize_and_derive_flags`, parameterized by the flag mapping (the
mapping is the declared configuration surface of the program): drop the rows
whose null-replaced, stripped status uppercases to `"CNN"`, then derive the
status and flag columns of each surviving row. -/
def normalize_and_derive_flagsWith (m : List (String × List String))
    (t : RawTable) : List EnrichedRow :=
  (t.rows.filter
      (fun r => ! isExcluded (selectStatus t.hasStatusRaw t.hasStatusNameRaw r))).map
    (enrichRowWith m t.hasStatusRaw t.hasStatusNameRaw)

/-- `normalize_and_derive_flags` with the shipped `STATUS_FLAG_MAPPING`. -/
def normalize_and_derive_flags (t : RawTable) : List EnrichedRow :=
  normalize_and_derive_flagsWith STATUS_FLAG_MAPPING t

/-- `.isin(allow)` membership for an optional key cell: a NaN cell is in no
allow-list. -/
def memOpt (o : Option String) (l : List String) : Bool :=
  match o with
  | some s => l.contains s
  | none => false

/-- `clean_and_filter`: normalize, then filter each dimension only when its
allow-list is truthy (Python: `if dev_grp_filter:` — `None` and `[]` are both
falsy, modelled by the empty list). -/
def clean_and_filter (t : RawTable) (dev_grp_filter project_filter : List String) :
    List EnrichedRow :=
  let df := normalize_and_derive_flags t
  let df2 := if dev_grp_filter.isEmpty then df
             else df.filter (fun r => memOpt r.dev_grp_name dev_grp_filter)
  if project_filter.isEmpty then df2
  else df2.filter (fun r => memOpt r.project project_filter)

/-- One row of `build_summary`'s output, fields in the order of the `.agg`
call of the source. -/
structure SummaryRow where
  project : Option String
  dev_grp_name : Option String
  total : ℕ
  spec_in_pgrs : ℕ
  spec_done : ℕ
  etl_in_pgrs : ℕ
  etl_done : ℕ
  qa_in_pgrs : ℕ
  qa_done : ℕ
  acc_done : ℕ
  prod_done : ℕ
  deriving DecidableEq

/-- Sum of a numeric column over a list of rows. -/
def sumBy {α : Type} (f : α → ℕ) (l : List α) : ℕ := (l.map f).sum

/-- The distinct (project, dev_grp_name) keys, NaN keys included
(`dropna=False`). -/
def groupKeys (rows : List EnrichedRow) : List (Option String × Option String) :=
  (rows.map (fun r => (r.project, r.dev_grp_name))).dedup

/-- The rows of one (project, dev_grp_name) group. -/
def groupRows (rows : List EnrichedRow) (k : Option String × Option String) :
    List EnrichedRow :=
  rows.filter (fun r => decide ((r.project, r.dev_grp_name) = k))

/-- `build_summary`: group by (project, dev_grp_name) with `dropna=False`,
emitting the group size as `total` and the sum of each flag column. -/
def build_summary (rows : List EnrichedRow) : List SummaryRow :=
  (groupKeys rows).map (fun k =>
    ⟨k.1, k.2, (groupRows rows k).length,
     sumBy (fun r => r.spec_in_pgrs_cnt) (groupRows rows k),
     sumBy (fun r => r.spec_done_cnt) (groupRows rows k),
     sumBy (fun r => r.etl_in_pgrs_cnt) (groupRows rows k),
     sumBy (fun r => r.etl_done_cnt) (groupRows rows k),
     sumBy (fun r => r.qa_in_pgrs_cnt) (groupRows rows k),
     sumBy (fun r => r.qa_done_cnt) (groupRows rows k),
     sumBy (fun r => r.acc_done_cnt) (groupRows rows k),
     sumBy (fun r => r.prod_done_cnt) (groupRows rows k)⟩)

/-- One row of the per-dev-group rollup `summary_by_group`.  The source's
`.agg` keeps only `total`, `prod_done`, `qa_done` and `acc_done`. -/
structure GroupRollup where
  dev_grp_name : String
  total : ℕ
  prod_done : ℕ
  qa_done : ℕ
  acc_done : ℕ
  deriving DecidableEq

/-- The summary rows of one dev-group (non-NaN key). -/
def rollupGroupRows (S : List SummaryRow) (g : String) : List SummaryRow :=
  S.filter (fun s => decide (s.dev_grp_name = some g))

/-- `summary_by_group`: the summary table regrouped by `dev_grp_name` alone
(default `dropna=True`, so NaN group names are dropped), summing `total`,
`prod_done`, `qa_done` and `acc_done`. -/
def summary_by_group (S : List SummaryRow) : List GroupRollup :=
  ((S.filterMap (fun s => s.dev_grp_name)).dedup).map (fun g =>
    ⟨g,
     sumBy (fun s => s.total) (rollupGroupRows S g),
     sumBy (fun s => s.prod_done) (rollupGroupRows S g),
     sumBy (fun s => s.qa_done) (rollupGroupRows S g),
     sumBy (fun s => s.acc_done) (rollupGroupRows S g)⟩)

/-- `total_records = len(df)`. -/
def total_records (df : List EnrichedRow) : ℕ := df.length

/-- `overall_completed`: the QA + ACC + PROD column sums of the filtered
enriched table. -/
def overall_completed (df : List EnrichedRow) : ℕ :=
  sumBy (fun r => r.qa_done_cnt) df + sumBy (fun r => r.acc_done_cnt) df +
    sumBy (fun r => r.prod_done_cnt) df

/-- Python 3 `round`: nearest integer, halves to even. -/
def roundHalfEven (q : ℚ) : ℤ :=
  let f := ⌊q⌋
  if q - f < 1 / 2 then f
  else if 1 / 2 < q - f then f + 1
  else if f % 2 = 0 then f else f + 1

/-- The percent-complete computation of `render_card`:
`denom = row["total"] if row["total"] else 1; round(100 * numerator / denom)`.
-/
def percent_complete (numerator total : ℕ) : ℤ :=
  let denom : ℕ := if total = 0 then 1 else total
  roundHalfEven ((100 * (numerator : ℚ)) / (denom : ℚ))

/-- Decidable pairwise-disjointness check of a flag mapping's (lower-cased)
accepted-code lists.  No such check exists anywhere in the source; it is
defined here only to state what the shipped mapping satisfies and what an
overlapping mapping violates. -/
def noOverlap : List (String × List String) → Bool
  | [] => true
  | e :: rest =>
      (rest.all (fun e2 =>
        e.2.all (fun c => ! (e2.2.map lowerStr).contains (lowerStr c)))) &&
      noOverlap rest

/-- The concrete three-row input of the end-to-end scenario. -/
def exTable1 : RawTable :=
  ⟨true, false,
   [⟨some "Apollo", some "Core ETL", "QA", ""⟩,
    ⟨some "Apollo", some "Core ETL", "CNN", ""⟩,
    ⟨some "Apollo", some "Core ETL", "", ""⟩]⟩

/-- Claim C1: on the three Apollo/Core ETL rows with statuses QA, CNN and
empty, the pipeline leaves exactly 2 enriched rows (the CNN row dropped) and
the single Group Summary row for (Apollo, Core ETL) has total 2, qa_done 1
and every other flag count 0 (the empty-status row resolves to PEND,
counting toward total but toward no flag). -/
theorem C1_end_to_end_scenario :
    (normalize_and_derive_flags exTable1).length = 2 ∧
    build_summary (normalize_and_derive_flags exTable1) =
      [⟨some "Apollo", some "Core ETL", 2, 0, 0, 0, 0, 0, 1, 0, 0⟩] := by
  decide

/-- A value whose stripped form uppercases to "CNN" is untouched by the
null-like replacement, hence caught by the CNN drop mask. -/
theorem excluded_of_cnn (s : String) (h : upperStr (stripStr s) = "CNN") :
    isExcluded s = true := by
  have hrepl : replaceNullLike (stripStr s) = stripStr s := by
    unfold replaceNullLike
    split_ifs with hc
    · rcases hc with h1 | h1 | h1 | h1 <;> rw [h1] at h <;> exact absurd h (by decide)
    · rfl
  simp [isExcluded, hrepl, h]

/-- Claim C2: a raw row whose status value, stripped and uppercased, equals
"CNN" is dropped by the normalizer: inserting such a row anywhere into the
input changes neither the normalizer's output nor any downstream output
(filtered table, group summary); exclusion is by omission, not by an error
(every function involved is total). -/
theorem C2_cnn_rows_excluded (hs hsn : Bool) (pre post : List RawRow) (r : RawRow)
    (h : upperStr (stripStr (selectStatus hs hsn r)) = "CNN") :
    normalize_and_derive_flags ⟨hs, hsn, pre ++ r :: post⟩ =
      normalize_and_derive_flags ⟨hs, hsn, pre ++ post⟩ ∧
    (∀ d p, clean_and_filter ⟨hs, hsn, pre ++ r :: post⟩ d p =
      clean_and_filter ⟨hs, hsn, pre ++ post⟩ d p) ∧
    build_summary (normalize_and_derive_flags ⟨hs, hsn, pre ++ r :: post⟩) =
      build_summary (normalize_and_derive_flags ⟨hs, hsn, pre ++ post⟩) := by
  have hex : isExcluded (selectStatus hs hsn r) = true := excluded_of_cnn _ h
  have h1 : normalize_and_derive_flags ⟨hs, hsn, pre ++ r :: post⟩ =
      normalize_and_derive_flags ⟨hs, hsn, pre ++ post⟩ := by
    simp [normalize_and_derive_flags, normalize_and_derive_flagsWith,
      List.filter_append, hex]
  refine ⟨h1, fun d p => ?_, by rw [h1]⟩
  simp only [clean_and_filter, h1]

/-- The raw row of the C2 witness: status `" cnn "`. -/
def exRowCnn : RawRow := ⟨some "P", some "G", " cnn ", ""⟩

/-- Witness for C2 at the concrete row with status `" cnn "`. -/
theorem C2_witness :
    upperStr (stripStr (selectStatus true false exRowCnn)) = "CNN" ∧
    normalize_and_derive_flags ⟨true, false, [exRowCnn]⟩ =
      normalize_and_derive_flags ⟨true, false, []⟩ :=
  ⟨by decide, (C2_cnn_rows_excluded true false [] [] exRowCnn (by decide)).1⟩

/-- The single-row table with status `"NAN"` (upper case). -/
def exTableNan : RawTable := ⟨true, false, [⟨some "P", some "G", "NAN", ""⟩]⟩

/-- Claim C3 counterexample: the claim says null-like recognition is
case-insensitive, so status `"NAN"` would resolve to `"PEND"`.  The code's
`replace` only matches the exact literals `"nan"`, `"NaN"`, `"None"`,
`"none"`; the row with status `"NAN"` keeps canonical status `"NAN"`, not
`"PEND"`. -/
theorem C3_counterexample :
    (normalize_and_derive_flags exTableNan).map (fun e => e.status_code) = ["NAN"] ∧
    (normalize_and_derive_flags exTableNan).map (fun e => e.status_code) ≠ ["PEND"] := by
  decide

/-- Claim C3 (amended): a raw row whose stripped status is empty, `"?"`, or
exactly one of the four literals `"nan"`, `"NaN"`, `"None"`, `"none"`
(whitespace-only input strips to empty) survives the CNN drop and is
enriched with canonical status `"PEND"` and all five done flags 0. -/
theorem C3_null_like_resolves_pend (t : RawTable) (r : RawRow) (hr : r ∈ t.rows)
    (h : stripStr (selectStatus t.hasStatusRaw t.hasStatusNameRaw r) ∈
      (["", "?", "nan", "NaN", "None", "none"] : List String)) :
    enrichRowWith STATUS_FLAG_MAPPING t.hasStatusRaw t.hasStatusNameRaw r ∈
      normalize_and_derive_flags t ∧
    (enrichRowWith STATUS_FLAG_MAPPING t.hasStatusRaw t.hasStatusNameRaw r).status_code
      = "PEND" ∧
    (enrichRowWith STATUS_FLAG_MAPPING t.hasStatusRaw t.hasStatusNameRaw r).spec_done_cnt = 0 ∧
    (enrichRowWith STATUS_FLAG_MAPPING t.hasStatusRaw t.hasStatusNameRaw r).etl_done_cnt = 0 ∧
    (enrichRowWith STATUS_FLAG_MAPPING t.hasStatusRaw t.hasStatusNameRaw r).qa_done_cnt = 0 ∧
    (enrichRowWith STATUS_FLAG_MAPPING t.hasStatusRaw t.hasStatusNameRaw r).acc_done_cnt = 0 ∧
    (enrichRowWith STATUS_FLAG_MAPPING t.hasStatusRaw t.hasStatusNameRaw r).prod_done_cnt = 0 := by
  simp only [List.mem_cons, List.not_mem_nil, or_false] at h
  have hcanon : canonicalStatus t.hasStatusRaw t.hasStatusNameRaw r = "PEND" := by
    unfold canonicalStatus
    rcases h with h | h | h | h | h | h <;> rw [h] <;> decide
  have hex : isExcluded (selectStatus t.hasStatusRaw t.hasStatusNameRaw r) = false := by
    unfold isExcluded
    rcases h with h | h | h | h | h | h <;> rw [h] <;> decide
  have hnorm : statusNorm t.hasStatusRaw t.hasStatusNameRaw r = "pend" := by
    unfold statusNorm
    rw [hcanon]
    decide
  refine ⟨?_, hcanon, ?_, ?_, ?_, ?_, ?_⟩
  · unfold normalize_and_derive_flags normalize_and_derive_flagsWith
    exact List.mem_map_of_mem _ (List.mem_filter.mpr ⟨hr, by simp [hex]⟩)
  all_goals
    simp only [enrichRowWith]
    rw [hnorm]
    decide

/-- The raw row of the C3 witness: status `" None "`. -/
def exRowNone : RawRow := ⟨some "P", some "G", " None ", ""⟩

/-- The single-row table of the C3 witness. -/
def exTableNone : RawTable := ⟨true, false, [exRowNone]⟩

/-- Witness for the amended C3 at the concrete row with status `" None "`. -/
theorem C3_witness :
    stripStr (selectStatus exTableNone.hasStatusRaw exTableNone.hasStatusNameRaw exRowNone) ∈
      (["", "?", "nan", "NaN", "None", "none"] : List String) ∧
    (enrichRowWith STATUS_FLAG_MAPPING exTableNone.hasStatusRaw
        exTableNone.hasStatusNameRaw exRowNone).status_code = "PEND" :=
  ⟨by decide,
   (C3_null_like_resolves_pend exTableNone exRowNone (by decide) (by decide)).2.1⟩

/-- Rounding an integer is the identity. -/
theorem roundHalfEven_intCast (z : ℤ) : roundHalfEven (z : ℚ) = z := by
  unfold roundHalfEven
  rw [Int.floor_intCast]
  norm_num

/-- Claim C7 counterexample: the claim says the percent computation is 0
whenever `total` is 0, for every numerator.  The code sets the denominator
to 1 in that case, so numerator 1 with total 0 yields 100, not 0. -/
theorem C7_counterexample : percent_complete 1 0 = 100 ∧ (100 : ℤ) ≠ 0 := by
  constructor
  · unfold percent_complete
    norm_num
    exact_mod_cast roundHalfEven_intCast 100
  · decide

/-- Claim C7 (amended): the percent computation equals
`round(100 * numerator / total)` when `total` is nonzero; when `total` is 0
the code treats the denominator as 1, yielding `100 * numerator` (never a
division fault), which is 0 exactly in the only case that arises from a real
Group Summary Row, numerator 0. -/
theorem C7_division_by_zero_guard (n total : ℕ) :
    percent_complete n total =
      (if total = 0 then (100 * n : ℤ)
       else roundHalfEven ((100 * (n : ℚ)) / (total : ℚ))) ∧
    percent_complete 0 0 = 0 := by
  constructor
  · by_cases h : total = 0
    · subst h
      have h1 : percent_complete n 0 = roundHalfEven (100 * (n : ℚ)) := by
        unfold percent_complete
        norm_num
      have h2 : roundHalfEven (100 * (n : ℚ)) = (100 * n : ℤ) := by
        rw [show (100 * (n : ℚ)) = ((100 * n : ℤ) : ℚ) by push_cast; ring]
        exact roundHalfEven_intCast _
      simp [h1, h2]
    · simp [percent_complete, h]
  · unfold percent_complete
    norm_num
    exact_mod_cast roundHalfEven_intCast 0

/-- The concrete summary table of the C8 counterexample: one (project, group)
with total 10, spec_done 7, etl_done 5, qa_done 1, acc_done 2, prod_done 3. -/
def exSummary8 : List SummaryRow :=
  [⟨some "p", some "g", 10, 0, 7, 0, 5, 0, 1, 2, 3⟩]

/-- Claim C8 counterexample: the claim says the per-dev-group rollup sums
`total` and each of the five done-flag counts.  The source's
`summary.groupby("dev_grp_name").agg(...)` only aggregates `total`,
`prod_done`, `qa_done` and `acc_done`: on this input the rollup row carries
exactly the values 10, 3, 1, 2, and neither the spec_done sum (7) nor the
etl_done sum (5) appears anywhere in it. -/
theorem C8_counterexample :
    summary_by_group exSummary8 = [⟨"g", 10, 3, 1, 2⟩] ∧
    sumBy (fun s => s.spec_done) exSummary8 = 7 ∧
    sumBy (fun s => s.etl_done) exSummary8 = 5 ∧
    (∀ x ∈ [(10 : ℕ), 3, 1, 2], x ≠ 7 ∧ x ≠ 5) := by
  decide

/-- Claim C8 (amended): for every Group Summary table, the per-dev-group
rollup produces, for each distinct non-null `dev_grp_name`, the sums of
`total`, `prod_done`, `qa_done` and `acc_done` across all projects sharing
that group name (`spec_done` and `etl_done` are not part of the rollup), and
every summary row with a non-null group name is covered by some rollup row. -/
theorem C8_rollup_sums (S : List SummaryRow) :
    (∀ g ∈ summary_by_group S,
      g.total = sumBy (fun s => s.total) (rollupGroupRows S g.dev_grp_name) ∧
      g.prod_done = sumBy (fun s => s.prod_done) (rollupGroupRows S g.dev_grp_name) ∧
      g.qa_done = sumBy (fun s => s.qa_done) (rollupGroupRows S g.dev_grp_name) ∧
      g.acc_done = sumBy (fun s => s.acc_done) (rollupGroupRows S g.dev_grp_name)) ∧
    (∀ s ∈ S, ∀ name, s.dev_grp_name = some name →
      ∃ g ∈ summary_by_group S, g.dev_grp_name = name) := by
  constructor
  · intro g hg
    rcases List.mem_map.mp hg with ⟨name, hname, rfl⟩
    exact ⟨rfl, rfl, rfl, rfl⟩
  · intro s hs name hname
    have hmem : name ∈ (S.filterMap (fun s => s.dev_grp_name)).dedup :=
      List.mem_dedup.mpr (List.mem_filterMap.mpr ⟨s, hs, hname⟩)
    exact ⟨_, List.mem_map_of_mem _ hmem, rfl⟩

/-- The two-project summary table of the C8 witness. -/
def exSummary8b : List SummaryRow :=
  [⟨some "p1", some "g", 3, 0, 0, 0, 0, 0, 1, 0, 2⟩,
   ⟨some "p2", some "g", 4, 0, 0, 0, 0, 0, 0, 0, 1⟩]

/-- Witness for the amended C8: the rollup row for group `"g"` sums the two
projects' totals (3 + 4) and flags. -/
theorem C8_witness :
    (⟨"g", 7, 3, 1, 0⟩ : GroupRollup) ∈ summary_by_group exSummary8b ∧
    (⟨"g", 7, 3, 1, 0⟩ : GroupRollup).total =
      sumBy (fun s => s.total) (rollupGroupRows exSummary8b "g") :=
  ⟨by decide, ((C8_rollup_sums exSummary8b).1 ⟨"g", 7, 3, 1, 0⟩ (by decide)).1⟩

/-- A deliberately overlapping mapping: `qa_done_cnt` and `acc_done_cnt` both
accept the code `"qa"`. -/
def overlapping_mapping : List (String × List String) :=
  [("qa_done_cnt", ["qa"]), ("acc_done_cnt", ["qa"])]

/-- The single-row table used for the C9 theorems. -/
def exTable9 : RawTable := ⟨true, false, [⟨some "P", some "G", "QA", ""⟩]⟩

/-- Claim C9 counterexample: the claim says an overlapping flag mapping makes
the program fail fatally at startup, before processing any rows.  The source
contains no validation of `STATUS_FLAG_MAPPING` at all: under an overlapping
mapping the pipeline happily processes a matching row and emits it with both
overlapping flags set (so no fatal configuration error occurs). -/
theorem C9_counterexample :
    noOverlap overlapping_mapping = false ∧
    (normalize_and_derive_flagsWith overlapping_mapping exTable9).map
      (fun e => (e.qa_done_cnt, e.acc_done_cnt)) = [(1, 1)] := by
  decide

/-- Claim C9 (amended): the program performs no startup validation of the
flag mapping; an overlapping mapping is not rejected — a row matching the
shared code is processed and gets every flag claiming that code (two flags
summing to 2 here).  The shipped `STATUS_FLAG_MAPPING` does have pairwise
disjoint code sets, so the at-most-one-done-flag invariant holds for the
shipped configuration. -/
theorem C9_no_startup_validation :
    noOverlap STATUS_FLAG_MAPPING = true ∧
    (normalize_and_derive_flagsWith overlapping_mapping exTable9).map
      (fun e => e.qa_done_cnt + e.acc_done_cnt) = [2] := by
  decide

/-- A flag column holds 0 or 1 under any mapping. -/
theorem flagVal_le_one (codes : List String) (n : String) : flagVal codes n ≤ 1 := by
  unfold flagVal
  split <;> simp

/-- An empty accepted-code list never sets its flag. -/
theorem flagVal_nil (n : String) : flagVal [] n = 0 := by
  simp [flagVal]

/-- A singleton accepted-code list in lower case sets its flag exactly on the
matching normalized status. -/
theorem flagVal_lower_singleton (c n : String) (hc : lowerStr c = c) :
    flagVal [c] n = if n = c then 1 else 0 := by
  unfold flagVal
  rw [List.map_cons, List.map_nil, hc]
  simp [List.mem_singleton]

/-- The eight flag columns under the shipped `STATUS_FLAG_MAPPING`, as
functions of the normalized status. -/
theorem shipped_flags (n : String) :
    flagVal (lookupCodes STATUS_FLAG_MAPPING "spec_done_cnt") n
      = (if n = "spec" then 1 else 0) ∧
    flagVal (lookupCodes STATUS_FLAG_MAPPING "etl_done_cnt") n
      = (if n = "etl" then 1 else 0) ∧
    flagVal (lookupCodes STATUS_FLAG_MAPPING "qa_done_cnt") n
      = (if n = "qa" then 1 else 0) ∧
    flagVal (lookupCodes STATUS_FLAG_MAPPING "acc_done_cnt") n
      = (if n = "acc" then 1 else 0) ∧
    flagVal (lookupCodes STATUS_FLAG_MAPPING "prod_done_cnt") n
      = (if n = "prod" then 1 else 0) ∧
    flagVal (lookupCodes STATUS_FLAG_MAPPING "spec_in_pgrs_cnt") n = 0 ∧
    flagVal (lookupCodes STATUS_FLAG_MAPPING "etl_in_pgrs_cnt") n = 0 ∧
    flagVal (lookupCodes STATUS_FLAG_MAPPING "qa_in_pgrs_cnt") n = 0 := by
  have l1 : lookupCodes STATUS_FLAG_MAPPING "spec_done_cnt" = ["spec"] := by decide
  have l2 : lookupCodes STATUS_FLAG_MAPPING "etl_done_cnt" = ["etl"] := by decide
  have l3 : lookupCodes STATUS_FLAG_MAPPING "qa_done_cnt" = ["qa"] := by decide
  have l4 : lookupCodes STATUS_FLAG_MAPPING "acc_done_cnt" = ["acc"] := by decide
  have l5 : lookupCodes STATUS_FLAG_MAPPING "prod_done_cnt" = ["prod"] := by decide
  have l6 : lookupCodes STATUS_FLAG_MAPPING "spec_in_pgrs_cnt" = [] := by decide
  have l7 : lookupCodes STATUS_FLAG_MAPPING "etl_in_pgrs_cnt" = [] := by decide
  have l8 : lookupCodes STATUS_FLAG_MAPPING "qa_in_pgrs_cnt" = [] := by decide
  rw [l1, l2, l3, l4, l5, l6, l7, l8]
  exact ⟨flagVal_lower_singleton _ _ (by decide), flagVal_lower_singleton _ _ (by decide),
    flagVal_lower_singleton _ _ (by decide), flagVal_lower_singleton _ _ (by decide),
    flagVal_lower_singleton _ _ (by decide), flagVal_nil _, flagVal_nil _, flagVal_nil _⟩

/-- The five pairwise-distinct status codes set at most one indicator. -/
theorem ite_sum_le_one (n : String) :
    (if n = "spec" then (1 : ℕ) else 0) + (if n = "etl" then 1 else 0) +
    (if n = "qa" then 1 else 0) + (if n = "acc" then 1 else 0) +
    (if n = "prod" then 1 else 0) ≤ 1 := by
  by_cases h1 : n = "spec"
  · subst h1; decide
  by_cases h2 : n = "etl"
  · subst h2; decide
  by_cases h3 : n = "qa"
  · subst h3; decide
  by_cases h4 : n = "acc"
  · subst h4; decide
  by_cases h5 : n = "prod"
  · subst h5; decide
  simp [h1, h2, h3, h4, h5]

/-- Claim C4: for every row that reaches flag derivation (i.e. every row of
the normalizer's output), the three legacy in-progress flags are 0; if the
normalized status is one of spec/etl/qa/acc/prod then exactly the matching
done flag is 1 and the others 0; any other status (PEND included) leaves all
five done flags 0; hence at most one done flag is set. -/
theorem C4_at_most_one_flag (t : RawTable) (e : EnrichedRow)
    (he : e ∈ normalize_and_derive_flags t) :
    (e.spec_in_pgrs_cnt = 0 ∧ e.etl_in_pgrs_cnt = 0 ∧ e.qa_in_pgrs_cnt = 0) ∧
    (e.status_code_norm = "spec" → e.spec_done_cnt = 1 ∧ e.etl_done_cnt = 0 ∧
      e.qa_done_cnt = 0 ∧ e.acc_done_cnt = 0 ∧ e.prod_done_cnt = 0) ∧
    (e.status_code_norm = "etl" → e.spec_done_cnt = 0 ∧ e.etl_done_cnt = 1 ∧
      e.qa_done_cnt = 0 ∧ e.acc_done_cnt = 0 ∧ e.prod_done_cnt = 0) ∧
    (e.status_code_norm = "qa" → e.spec_done_cnt = 0 ∧ e.etl_done_cnt = 0 ∧
      e.qa_done_cnt = 1 ∧ e.acc_done_cnt = 0 ∧ e.prod_done_cnt = 0) ∧
    (e.status_code_norm = "acc" → e.spec_done_cnt = 0 ∧ e.etl_done_cnt = 0 ∧
      e.qa_done_cnt = 0 ∧ e.acc_done_cnt = 1 ∧ e.prod_done_cnt = 0) ∧
    (e.status_code_norm = "prod" → e.spec_done_cnt = 0 ∧ e.etl_done_cnt = 0 ∧
      e.qa_done_cnt = 0 ∧ e.acc_done_cnt = 0 ∧ e.prod_done_cnt = 1) ∧
    (e.status_code_norm ∉ (["spec", "etl", "qa", "acc", "prod"] : List String) →
      e.spec_done_cnt = 0 ∧ e.etl_done_cnt = 0 ∧ e.qa_done_cnt = 0 ∧
      e.acc_done_cnt = 0 ∧ e.prod_done_cnt = 0) ∧
    e.spec_done_cnt + e.etl_done_cnt + e.qa_done_cnt + e.acc_done_cnt +
      e.prod_done_cnt ≤ 1 := by
  unfold normalize_and_derive_flags normalize_and_derive_flagsWith at he
  rcases List.mem_map.mp he with ⟨r, hr, rfl⟩
  obtain ⟨f1, f2, f3, f4, f5, g1, g2, g3⟩ :=
    shipped_flags (statusNorm t.hasStatusRaw t.hasStatusNameRaw r)
  simp only [enrichRowWith]
  rw [f1, f2, f3, f4, f5, g1, g2, g3]
  refine ⟨⟨rfl, rfl, rfl⟩, ?_, ?_, ?_, ?_, ?_, ?_, ite_sum_le_one _⟩
  · intro h; rw [h]; decide
  · intro h; rw [h]; decide
  · intro h; rw [h]; decide
  · intro h; rw [h]; decide
  · intro h; rw [h]; decide
  · intro h
    simp only [List.mem_cons, List.not_mem_nil, or_false, not_or] at h
    obtain ⟨n1, n2, n3, n4, n5⟩ := h
    simp [n1, n2, n3, n4, n5]

/-- The input table of the C4 witness: one row with status "ETL". -/
def exTable4 : RawTable := ⟨true, false, [⟨some "P", some "G", "ETL", ""⟩]⟩

/-- The enriched form of the C4 witness row. -/
def exEnriched4 : EnrichedRow :=
  enrichRowWith STATUS_FLAG_MAPPING true false ⟨some "P", some "G", "ETL", ""⟩

/-- Witness for C4: the "ETL" row gets exactly `etl_done_cnt = 1`. -/
theorem C4_witness :
    exEnriched4 ∈ normalize_and_derive_flags exTable4 ∧
    exEnriched4.status_code_norm = "etl" ∧
    (exEnriched4.spec_done_cnt = 0 ∧ exEnriched4.etl_done_cnt = 1 ∧
     exEnriched4.qa_done_cnt = 0 ∧ exEnriched4.acc_done_cnt = 0 ∧
     exEnriched4.prod_done_cnt = 0) :=
  ⟨by decide, by decide,
   (C4_at_most_one_flag exTable4 exEnriched4 (by decide)).2.2.1 (by decide)⟩

/-- Every row surviving `clean_and_filter` is a row of the normalizer's
output (the two dimension filters only remove rows). -/
theorem mem_clean_and_filter (t : RawTable) (d p : List String) (e : EnrichedRow)
    (he : e ∈ clean_and_filter t d p) : e ∈ normalize_and_derive_flags t := by
  simp only [clean_and_filter] at he
  split_ifs at he
  all_goals
    first
    | exact he
    | (simp only [List.mem_filter] at he; tauto)

/-- Each flag column of a pipeline row is 0 or 1. -/
theorem pipeline_flag_le_one (t : RawTable) (e : EnrichedRow)
    (he : e ∈ normalize_and_derive_flags t) :
    e.spec_done_cnt ≤ 1 ∧ e.etl_done_cnt ≤ 1 ∧ e.qa_done_cnt ≤ 1 ∧
    e.acc_done_cnt ≤ 1 ∧ e.prod_done_cnt ≤ 1 ∧ e.spec_in_pgrs_cnt ≤ 1 ∧
    e.etl_in_pgrs_cnt ≤ 1 ∧ e.qa_in_pgrs_cnt ≤ 1 := by
  unfold normalize_and_derive_flags normalize_and_derive_flagsWith at he
  rcases List.mem_map.mp he with ⟨r, hr, rfl⟩
  simp only [enrichRowWith]
  exact ⟨flagVal_le_one _ _, flagVal_le_one _ _, flagVal_le_one _ _,
    flagVal_le_one _ _, flagVal_le_one _ _, flagVal_le_one _ _,
    flagVal_le_one _ _, flagVal_le_one _ _⟩

/-- The five done flags of a pipeline row sum to at most 1 (disjointness of
the shipped mapping's code sets). -/
theorem pipeline_five_le_one (t : RawTable) (e : EnrichedRow)
    (he : e ∈ normalize_and_derive_flags t) :
    e.spec_done_cnt + e.etl_done_cnt + e.qa_done_cnt + e.acc_done_cnt +
      e.prod_done_cnt ≤ 1 := by
  unfold normalize_and_derive_flags normalize_and_derive_flagsWith at he
  rcases List.mem_map.mp he with ⟨r, hr, rfl⟩
  obtain ⟨f1, f2, f3, f4, f5, _, _, _⟩ :=
    shipped_flags (statusNorm t.hasStatusRaw t.hasStatusNameRaw r)
  simp only [enrichRowWith]
  rw [f1, f2, f3, f4, f5]
  exact ite_sum_le_one _

/-- A column of 0/1 values sums to at most the row count. -/
theorem sumBy_le_length {α : Type} (f : α → ℕ) (l : List α)
    (h : ∀ x ∈ l, f x ≤ 1) : sumBy f l ≤ l.length := by
  induction l with
  | nil => simp [sumBy]
  | cons a l ih =>
      have ha := h a (List.mem_cons_self a l)
      have ih' := ih (fun x hx => h x (List.mem_cons_of_mem _ hx))
      simp only [sumBy, List.map_cons, List.sum_cons, List.length_cons] at ih' ⊢
      omega

/-- Column sums distribute over pointwise addition. -/
theorem sumBy_add {α : Type} (f g : α → ℕ) (l : List α) :
    sumBy (fun x => f x + g x) l = sumBy f l + sumBy g l := by
  induction l with
  | nil => simp [sumBy]
  | cons a l ih =>
      simp only [sumBy, List.map_cons, List.sum_cons] at ih ⊢
      omega

/-- Claim C5: for every filtered enriched table and every Group Summary Row,
`total` equals the number of filtered rows carrying that exact
(project, dev_grp_name) pair, `total` bounds every individual flag count,
and every filtered row's key — a null/missing key included — is represented
by a summary row (groups with a null key are preserved, not dropped). -/
theorem C5_aggregator_invariant (t : RawTable) (d p : List String) :
    (∀ s ∈ build_summary (clean_and_filter t d p),
      s.total = (groupRows (clean_and_filter t d p)
        (s.project, s.dev_grp_name)).length ∧
      s.spec_done ≤ s.total ∧ s.etl_done ≤ s.total ∧ s.qa_done ≤ s.total ∧
      s.acc_done ≤ s.total ∧ s.prod_done ≤ s.total ∧
      s.spec_in_pgrs ≤ s.total ∧ s.etl_in_pgrs ≤ s.total ∧ s.qa_in_pgrs ≤ s.total) ∧
    (∀ r ∈ clean_and_filter t d p,
      ∃ s ∈ build_summary (clean_and_filter t d p),
        s.project = r.project ∧ s.dev_grp_name = r.dev_grp_name) := by
  constructor
  · intro s hs
    unfold build_summary at hs
    rcases List.mem_map.mp hs with ⟨k, hk, rfl⟩
    have hsub : ∀ x ∈ groupRows (clean_and_filter t d p) k,
        x ∈ clean_and_filter t d p := fun x hx => (List.mem_filter.mp hx).1
    have hbound : ∀ f : EnrichedRow → ℕ,
        (∀ x ∈ clean_and_filter t d p, f x ≤ 1) →
        sumBy f (groupRows (clean_and_filter t d p) k) ≤
          (groupRows (clean_and_filter t d p) k).length :=
      fun f hf => sumBy_le_length f _ (fun x hx => hf x (hsub x hx))
    have hle := fun x (hx : x ∈ clean_and_filter t d p) =>
      pipeline_flag_le_one t x (mem_clean_and_filter t d p x hx)
    refine ⟨by simp, ?_, ?_, ?_, ?_, ?_, ?_, ?_, ?_⟩
    · exact hbound _ (fun x hx => (hle x hx).1)
    · exact hbound _ (fun x hx => (hle x hx).2.1)
    · exact hbound _ (fun x hx => (hle x hx).2.2.1)
    · exact hbound _ (fun x hx => (hle x hx).2.2.2.1)
    · exact hbound _ (fun x hx => (hle x hx).2.2.2.2.1)
    · exact hbound _ (fun x hx => (hle x hx).2.2.2.2.2.1)
    · exact hbound _ (fun x hx => (hle x hx).2.2.2.2.2.2.1)
    · exact hbound _ (fun x hx => (hle x hx).2.2.2.2.2.2.2)
  · intro r hr
    have hkey : (r.project, r.dev_grp_name) ∈ groupKeys (clean_and_filter t d p) :=
      List.mem_dedup.mpr (List.mem_map_of_mem _ hr)
    exact ⟨_, by unfold build_summary; exact List.mem_map_of_mem _ hkey, rfl, rfl⟩

/-- The input table of the C5 witness: its single row has a null project
key. -/
def exTable5 : RawTable := ⟨true, false, [⟨none, some "G", "QA", ""⟩]⟩

/-- The enriched form of the C5 witness row (null project key). -/
def exEnriched5 : EnrichedRow :=
  enrichRowWith STATUS_FLAG_MAPPING true false ⟨none, some "G", "QA", ""⟩

/-- Witness for C5: a row with a null project key is preserved as its own
group in the summary. -/
theorem C5_witness :
    exEnriched5 ∈ clean_and_filter exTable5 [] [] ∧
    (∃ s ∈ build_summary (clean_and_filter exTable5 [] []),
      s.project = exEnriched5.project ∧ s.dev_grp_name = exEnriched5.dev_grp_name) :=
  ⟨by decide, (C5_aggregator_invariant exTable5 [] []).2 exEnriched5 (by decide)⟩

/-- Claim C6: an empty (or unspecified, modelled identically) allow-set on a
dimension applies no filtering on that dimension — with both empty the
output is exactly the normalizer's output — and in general the retained
rows are exactly those passing the conjunction of the two per-dimension
membership predicates, in their original relative order (a single stable
`filter` pass). -/
theorem C6_empty_filter_pass_through (t : RawTable) (d p : List String) :
    clean_and_filter t [] [] = normalize_and_derive_flags t ∧
    clean_and_filter t d p =
      (normalize_and_derive_flags t).filter
        (fun r => (d.isEmpty || memOpt r.dev_grp_name d) &&
                  (p.isEmpty || memOpt r.project p)) := by
  constructor
  · rfl
  · unfold clean_and_filter
    by_cases hd : d.isEmpty <;> by_cases hp : p.isEmpty
    · simp [hd, hp]
    · simp [hd, hp]
    · simp [hd, hp]
    · simp [hd, hp, List.filter_filter]
      exact List.filter_congr (fun x _ => by rw [Bool.and_comm])

/-- Claim C10: for every Group Summary Row produced by the pipeline, the sum
of all five done-flag counts is at most `total` (each row sets at most one
done flag), and consequently the global "All Completed (QA+ACC+PROD)" metric
never exceeds the total record count. -/
theorem C10_flag_sum_bounded (t : RawTable) (d p : List String) :
    (∀ s ∈ build_summary (clean_and_filter t d p),
      s.spec_done + s.etl_done + s.qa_done + s.acc_done + s.prod_done ≤ s.total) ∧
    overall_completed (clean_and_filter t d p) ≤
      total_records (clean_and_filter t d p) := by
  have hfive : ∀ x ∈ clean_and_filter t d p,
      x.spec_done_cnt + x.etl_done_cnt + x.qa_done_cnt + x.acc_done_cnt +
        x.prod_done_cnt ≤ 1 :=
    fun x hx => pipeline_five_le_one t x (mem_clean_and_filter t d p x hx)
  constructor
  · intro s hs
    unfold build_summary at hs
    rcases List.mem_map.mp hs with ⟨k, hk, rfl⟩
    have hsub : ∀ x ∈ groupRows (clean_and_filter t d p) k,
        x ∈ clean_and_filter t d p := fun x hx => (List.mem_filter.mp hx).1
    show sumBy _ _ + sumBy _ _ + sumBy _ _ + sumBy _ _ + sumBy _ _ ≤ _
    rw [← sumBy_add, ← sumBy_add, ← sumBy_add, ← sumBy_add]
    exact sumBy_le_length _ _ (fun x hx => hfive x (hsub x hx))
  · unfold overall_completed total_records
    rw [← sumBy_add, ← sumBy_add]
    exact sumBy_le_length _ _ (fun x hx => by have := hfive x hx; omega)

/-- The input table of the C10 witness: statuses PROD, QA and empty. -/
def exTable10 : RawTable :=
  ⟨true, false,
   [⟨some "P", some "G", "PROD", ""⟩,
    ⟨some "P", some "G", "QA", ""⟩,
    ⟨some "P", some "G", "", ""⟩]⟩

/-- Witness for C10: the (P, G) summary row has flag sum 2 ≤ total 3. -/
theorem C10_witness :
    ((⟨some "P", some "G", 3, 0, 0, 0, 0, 0, 1, 0, 1⟩ : SummaryRow) ∈
      build_summary (clean_and_filter exTable10 [] [])) ∧
    (⟨some "P", some "G", 3, 0, 0, 0, 0, 0, 1, 0, 1⟩ : SummaryRow).spec_done +
      (⟨some "P", some "G", 3, 0, 0, 0, 0, 0, 1, 0, 1⟩ : SummaryRow).etl_done +
      (⟨some "P", some "G", 3, 0, 0, 0, 0, 0, 1, 0, 1⟩ : SummaryRow).qa_done +
      (⟨some "P", some "G", 3, 0, 0, 0, 0, 0, 1, 0, 1⟩ : SummaryRow).acc_done +
      (⟨some "P", some "G", 3, 0, 0, 0, 0, 0, 1, 0, 1⟩ : SummaryRow).prod_done ≤
      (⟨some "P", some "G", 3, 0, 0, 0, 0, 0, 1, 0, 1⟩ : SummaryRow).total :=
  ⟨by decide, (C10_flag_sum_bounded exTable10 [] []).1 _ (by decide)⟩
